import Mathlib

/-!
Shallow embedding of the recurring-event expansion, range-query and reminder
logic of the gemini_scheduler_app backend
(backend/services/event_service.py, backend/services/reminder_service.py,
backend/api/event.py, backend/models/event.py).

Modelling conventions:
* A `datetime` instant is an `Int`, the number of microseconds since an
  arbitrary UTC origin (in concrete scenarios the origin is 2024-01-01T00:00Z).
  Database datetimes are timezone-naive (SQLite drops tzinfo on insert), and
  their naive reading is UTC, so an event's `start_time`/`end_time` is a bare
  instant.  Where the Python code distinguishes naive from timezone-aware
  datetimes (string rendering, comparisons) an explicit `aware` flag is kept.
* `parse_datetime_flexible` / the raw query-string arguments are abstracted by
  `DateInput`: `missing` is an absent or empty string, `invalid` a non-empty
  string no format accepts, `naive t` a string parsing to a tz-naive datetime
  at instant `t` (read as UTC), `aware t` one parsing with an explicit offset.
* `dateutil.rrule.rrulestr` applied to the stored `recurrence_rule` text is
  abstracted by `RuleText`: `valid r` is a string that parses to the rule `r`
  (e.g. "FREQ=DAILY;COUNT=3"), `malformed` a string on which `rrulestr`
  raises (e.g. "NOT;A;VALID;RULE").  `RRule.between` models
  `rrule.rrulestr(text, dtstart).between(a, b, inc=True)` for the fixed-step
  frequencies the rule grammar of this app exercises: the occurrences are
  `dtstart + k * step` for `k = 0, 1, ...`, capped by COUNT and UNTIL, and
  `between` keeps those inside `[a, b]` (both bounds inclusive).
* `Event.to_dict` renders datetimes with `isoformat() + 'Z'`.  For a
  tz-aware datetime this yields a malformed string such as
  "2024-01-02T10:00:00+00:00Z", which `dateutil.parser.isoparse` rejects
  (its tz part must have length 1, 3, 5 or 6).  A record therefore keeps a
  `start_aware` flag, and the final sort fails iff some record has it set:
  exactly the occurrence records, whose resolved datetimes are made aware.
* In the fallback branch for a malformed rule, the source compares the naive
  `event.start_time` with the tz-aware window bound inside the `except`
  block; in Python this raises `TypeError`.  The embedding returns
  `QueryError.naiveAwareTypeError` there.
* SQLAlchemy/SQLite comparisons in the candidate filter bind parameters by
  formatting without tzinfo, so they compare bare instants;ordering ties in
  `ORDER BY start_time` keep rowid (insertion) order, and Python's
  `list.sort` is stable, so both sorts are modelled by the stable
  `List.insertionSort`.
-/

/-- Microseconds in one day. -/
def microsPerDay : Int := 86400000000

/-- Microseconds in one minute. -/
def microsPerMinute : Int := 60000000

/-- Microseconds in one hour. -/
def microsPerHour : Int := 3600000000

/-- The instant of the same calendar day whose time-of-day is
23:59:59.999999, i.e. `dt.replace(hour=23, minute=59, second=59,
microsecond=999999)` on a naive datetime (event_service.py line 130).
Day arithmetic uses floor division; for the positive divisor
`microsPerDay` Lean's Euclidean `/` and `%` agree with it. -/
def endOfDay (t : Int) : Int := t / microsPerDay * microsPerDay + (microsPerDay - 1)

/-- Recurrence frequencies with a fixed step, the ones the app's rule strings
use (dateutil's DAILY and WEEKLY). -/
inductive Freq where
  | daily
  | weekly
deriving DecidableEq, Repr

/-- Step of one frequency unit in microseconds. -/
def Freq.stepMicros : Freq → Int
  | .daily => microsPerDay
  | .weekly => 7 * microsPerDay

/-- A parsed recurrence rule: FREQ with INTERVAL, COUNT, UNTIL. -/
structure RRule where
  freq : Freq
  interval : Nat
  count : Option Nat
  untilTime : Option Int
deriving DecidableEq, Repr

/-- Models `rrule.rrulestr(text, dtstart=dtstart).between(a, b, inc=True)`:
the occurrences of the series anchored at `dtstart` that lie in `[a, b]`,
ascending.  COUNT caps the whole series (first `count` occurrences from the
anchor), UNTIL drops occurrences after its instant, and the enumeration is
clipped at `b`. -/
def RRule.between (r : RRule) (dtstart a b : Int) : List Int :=
  let step : Int := r.freq.stepMicros * (r.interval : Int)
  if b < dtstart ∨ r.interval = 0 then []
  else
    let kmax : Nat := (b - dtstart).toNat / step.toNat
    let total : Nat :=
      match r.count with
      | none => kmax + 1
      | some c => min (kmax + 1) c
    ((List.range total).map (fun k => dtstart + (k : Int) * step)).filter
      (fun t => decide (a ≤ t) &&
        (match r.untilTime with
         | none => true
         | some u => decide (t ≤ u)))

/-- The stored `recurrence_rule` text as `rrulestr` sees it: either it parses
to a rule, or `rrulestr` raises on it. -/
inductive RuleText where
  | valid (r : RRule)
  | malformed
deriving DecidableEq, Repr

/-- The persisted event record (backend/models/event.py).  Datetimes are
naive UTC instants as stored by SQLite. -/
structure Event where
  id : Nat
  title : String
  start_time : Int
  end_time : Int
  description : Option String
  color_tag : Option String
  user_id : Nat
  reminder_sent : Bool
  recurrence_rule : Option RuleText
  parent_event_id : Option Nat
deriving DecidableEq, Repr

/-- The dictionary `Event.to_dict` produces.  `start_aware` / `end_aware`
record whether the rendered datetime string carries a UTC offset before the
appended 'Z' (true exactly when an explicit occurrence datetime, which the
expansion makes tz-aware, was passed in). -/
structure DisplayRecord where
  id : Nat
  title : String
  start_time : Int
  start_aware : Bool
  end_time : Int
  end_aware : Bool
  description : Option String
  color_tag : Option String
  user_id : Nat
  reminder_sent : Bool
  recurrence_rule : Option RuleText
  parent_event_id : Option Nat
  is_occurrence : Bool
  series_start_time : Option Int
deriving DecidableEq, Repr

/-- `Event.to_dict(is_occurrence, occurrence_start_time, occurrence_end_time)`
(backend/models/event.py lines 27-47).  `occurrence_start_time or
self.start_time` is `Option.getD` (a datetime is always truthy). -/
def Event.to_dict (self : Event) (is_occurrence : Bool)
    (occurrence_start_time occurrence_end_time : Option Int) : DisplayRecord :=
  { id := self.id
    title := self.title
    start_time := occurrence_start_time.getD self.start_time
    start_aware := occurrence_start_time.isSome
    end_time := occurrence_end_time.getD self.end_time
    end_aware := occurrence_end_time.isSome
    description := self.description
    color_tag := self.color_tag
    user_id := self.user_id
    reminder_sent := self.reminder_sent
    recurrence_rule := self.recurrence_rule
    parent_event_id := self.parent_event_id
    is_occurrence := is_occurrence
    series_start_time := if is_occurrence then some self.start_time else none }

/-- A raw `start_date` / `end_date` request argument, abstracted at the level
`parse_datetime_flexible` observes it. -/
inductive DateInput where
  | missing
  | invalid
  | naive (t : Int)
  | aware (t : Int)
deriving DecidableEq, Repr

/-- Whether the raw string is absent or empty (`not start_date_str`). -/
def DateInput.isMissing : DateInput → Bool
  | .missing => true
  | _ => false

/-- Result of `parse_datetime_flexible`: the parsed instant plus whether the
parse produced a tz-aware datetime; `none` when no format matched. -/
def DateInput.parsed : DateInput → Option (Int × Bool)
  | .missing => none
  | .invalid => none
  | .naive t => some (t, false)
  | .aware t => some (t, true)

/-- The ways `get_events_in_range` fails.  The first two are the error
dictionaries returned with status 400; the last two are uncaught Python
exceptions escaping the function (`TypeError` from comparing a naive and an
aware datetime at line 165, `ValueError` from `isoparse` on an
occurrence's "+00:00Z" string at line 198). -/
inductive QueryError where
  | windowRequired
  | invalidDate
  | naiveAwareTypeError
  | sortKeyValueError
deriving DecidableEq, Repr

/-- Lines 109-130 of event_service.py: reject a missing bound, parse both
bounds, treat naive bounds as UTC, and replace a naive end bound's
time-of-day with 23:59:59.999999. -/
def resolveWindow (s e : DateInput) : Except QueryError (Int × Int) :=
  if s.isMissing || e.isMissing then .error .windowRequired
  else
    match s.parsed, e.parsed with
    | some sp, some ep =>
        let query_start_dt := sp.1
        let query_end_dt := if ep.2 then ep.1 else endOfDay ep.1
        .ok (query_start_dt, query_end_dt)
    | _, _ => .error .invalidDate

/-- The candidate filter of the store query (event_service.py lines 139-150):
owned by the user, a master (no parent), and either non-recurring with a
non-strict interval overlap of the window or recurring with
`start_time <= query_end_dt`. -/
def isPotentialEvent (user_id : Nat) (qs qe : Int) (ev : Event) : Bool :=
  ev.user_id == user_id && ev.parent_event_id.isNone &&
    (match ev.recurrence_rule with
     | none => decide (ev.start_time ≤ qe) && decide (qs ≤ ev.end_time)
     | some _ => decide (ev.start_time ≤ qe))

/-- Expansion of one valid-rule master (event_service.py lines 169-191):
candidate starts from `rule.between(query_start_dt, query_end_dt, inc=True)`,
each given the master's duration, kept iff it strictly overlaps the window,
and rendered with tz-aware resolved datetimes. -/
def expandRecurring (qs qe : Int) (ev : Event) (r : RRule) : List DisplayRecord :=
  let occurrences := r.between ev.start_time qs qe
  let event_duration := ev.end_time - ev.start_time
  occurrences.filterMap fun occ_start =>
    let occ_end := occ_start + event_duration
    if decide (occ_start < qe) && decide (qs < occ_end) then
      some (ev.to_dict true (some occ_start) (some occ_end))
    else none

/-- The body of the `for event in potential_events` loop (event_service.py
lines 152-195), folded over the ordered candidates.  A malformed rule is
caught at line 162, but the fallback at line 165 then compares the naive
`event.start_time` with the tz-aware `query_start_dt`, raising `TypeError`
and aborting the whole query. -/
def expandAll (qs qe : Int) : List Event → Except QueryError (List DisplayRecord)
  | [] => .ok []
  | ev :: rest =>
    match ev.recurrence_rule with
    | some (.valid r) => (expandAll qs qe rest).map (fun l => expandRecurring qs qe ev r ++ l)
    | some .malformed => .error .naiveAwareTypeError
    | none => (expandAll qs qe rest).map (fun l => ev.to_dict false none none :: l)

/-- Ordering of display records used by the final sort, the instant the
sort key `isoparse(x['start_time'])` denotes. -/
def recStartLE : DisplayRecord → DisplayRecord → Prop :=
  fun a b => a.start_time ≤ b.start_time

instance : DecidableRel recStartLE := fun a b => inferInstanceAs (Decidable (a.start_time ≤ b.start_time))

instance : IsTotal DisplayRecord recStartLE := ⟨fun a b => Int.le_total a.start_time b.start_time⟩

instance : IsTrans DisplayRecord recStartLE := ⟨fun _ _ _ => Int.le_trans⟩

/-- Ordering of candidate events used by `ORDER BY start_time ASC`. -/
def evStartLE : Event → Event → Prop :=
  fun a b => a.start_time ≤ b.start_time

instance : DecidableRel evStartLE := fun a b => inferInstanceAs (Decidable (a.start_time ≤ b.start_time))

/-- Line 198 of event_service.py:
`all_events_for_display.sort(key=lambda x: isoparse(x['start_time']))`.
`list.sort` computes every key first; `isoparse` raises `ValueError` on any
record whose start string carries "+00:00Z" (exactly the `start_aware`
ones).  Otherwise the keys are the instants and the sort is stable. -/
def sortByStart (l : List DisplayRecord) : Except QueryError (List DisplayRecord) :=
  if l.all (fun rec => !rec.start_aware) then .ok (l.insertionSort recStartLE)
  else .error .sortKeyValueError

/-- `get_events_in_range(user_id, start_date_str, end_date_str)`
(event_service.py lines 104-200) over an in-memory store `events` (the rows
of the events table in insertion order). -/
def get_events_in_range (user_id : Nat) (events : List Event) (s e : DateInput) :
    Except QueryError (List DisplayRecord) :=
  match resolveWindow s e with
  | .error err => .error err
  | .ok (qs, qe) =>
    let potential_events := (events.filter (isPotentialEvent user_id qs qe)).insertionSort evStartLE
    match expandAll qs qe potential_events with
    | .error err => .error err
    | .ok all_events_for_display => sortByStart all_events_for_display

/-- Errors of the create/update endpoints' time handling. -/
inductive ApiErr where
  | missingField
  | invalidDatetime
  | endBeforeStart
deriving DecidableEq, Repr

/-- Time handling of `create_event` (backend/api/event.py lines 44-54): both
time strings must be present and parse, and an `end_time` strictly before
`start_time` is rejected with status 400. -/
def create_event_times (start_time end_time : Option Int) : Except ApiErr (Int × Int) :=
  match start_time, end_time with
  | some st, some et => if et < st then .error .endBeforeStart else .ok (st, et)
  | _, _ => .error .invalidDatetime

/-- Time handling of `update_event` (backend/api/event.py lines 129-144):
provided bounds replace the stored ones, then an `end_time` strictly before
`start_time` is rejected with status 400. -/
def update_event_times (ev : Event) (start_time end_time : Option Int) : Except ApiErr Event :=
  if end_time.getD ev.end_time < start_time.getD ev.start_time then .error .endBeforeStart
  else .ok { ev with start_time := start_time.getD ev.start_time
                     end_time := end_time.getD ev.end_time }

/-- The reminder window test (reminder_service.py lines 14-15 and 35-38):
`start_time` between `now - 10 minutes` and `now + 1 hour`. -/
def reminderWindowOk (now : Int) (ev : Event) : Bool :=
  decide (now - 10 * microsPerMinute ≤ ev.start_time) &&
    decide (ev.start_time ≤ now + 60 * microsPerMinute)

/-- The candidate query of the reminder scan (reminder_service.py lines
35-39): events in the reminder window with `reminder_sent == False`. -/
def reminderCandidates (now : Int) (db : List Event) : List Event :=
  db.filter (fun ev => reminderWindowOk now ev && !ev.reminder_sent)

/-- Result of one reminder scan: the durable store after the scan, the number
of candidates processed and the number of reminders sent (the two counts in
the returned status string). -/
structure ScanResult where
  db : List Event
  processed : Nat
  sent : Nat
deriving DecidableEq, Repr

/-- `send_event_reminders` run to completion (reminder_service.py lines
8-66).  `send ev.id` models whether building and sending the mail for that
event succeeds.  Each success sets `reminder_sent = True` on the in-session
object; the single `db.session.commit()` after the loop (line 63, only when
`sent_count > 0`) makes all those flags durable at once. -/
def send_event_reminders (send : Nat → Bool) (now : Int) (db : List Event) : ScanResult :=
  let events_to_remind := reminderCandidates now db
  let sentIds := (events_to_remind.filter (fun ev => send ev.id)).map (fun ev => ev.id)
  let committed :=
    if 0 < sentIds.length then
      db.map (fun ev => if sentIds.contains ev.id then { ev with reminder_sent := true } else ev)
    else db
  { db := committed, processed := events_to_remind.length, sent := sentIds.length }

/-- `send_event_reminders` interrupted by a crash after the first `n`
candidates of the loop were processed, before the commit at line 63 is
reached.  Returns the durable store at that moment (unchanged: every flag
write still sits in the uncommitted session) together with the ids of the
events whose notification was already sent. -/
def send_event_reminders_interrupted (send : Nat → Bool) (now : Int) (db : List Event)
    (n : Nat) : List Event × List Nat :=
  let processedSoFar := (reminderCandidates now db).take n
  (db, (processedSoFar.filter (fun ev => send ev.id)).map (fun ev => ev.id))

deriving instance DecidableEq for Except

/-- A sample master event owned by user 1, with no description or tags and
no parent, used to instantiate the concrete scenarios. -/
def mkEvent (id : Nat) (s e : Int) (rule : Option RuleText) : Event :=
  { id := id
    title := "sample"
    start_time := s
    end_time := e
    description := none
    color_tag := none
    user_id := 1
    reminder_sent := false
    recurrence_rule := rule
    parent_event_id := none }

/-- The rule text "FREQ=DAILY;COUNT=3". -/
def dailyCount3 : RRule := { freq := .daily, interval := 1, count := some 3, untilTime := none }

/-- Scenario master of spec section 8: start 2024-01-01T10:00Z, end
2024-01-01T11:00Z, rule "FREQ=DAILY;COUNT=3" (instants relative to
2024-01-01T00:00Z). -/
def eventScenario : Event :=
  mkEvent 1 (10 * microsPerHour) (11 * microsPerHour) (some (.valid dailyCount3))

/-- A two-hour recurring master for the widening claim: start
2024-01-01T10:00Z, end 2024-01-01T12:00Z, rule "FREQ=DAILY;COUNT=3". -/
def eventLong : Event :=
  mkEvent 1 (10 * microsPerHour) (12 * microsPerHour) (some (.valid dailyCount3))

/-- A non-recurring event ending exactly at 2024-01-02T00:00Z: start
2024-01-01T20:00Z, end 2024-01-02T00:00Z. -/
def eventTouching : Event :=
  mkEvent 1 (20 * microsPerHour) microsPerDay none

/-- A malformed-rule master overlapping but not contained in the
2024-01-02 whole-day window: start 2024-01-01T23:00Z, end 2024-01-02T01:00Z,
rule "NOT;A;VALID;RULE". -/
def eventBadRule : Event :=
  mkEvent 1 (23 * microsPerHour) (25 * microsPerHour) (some .malformed)

/-- Tie-break sample: id 2, inserted first, 2024-01-01T10:00Z to 11:00Z. -/
def eventTieA : Event := mkEvent 2 (10 * microsPerHour) (11 * microsPerHour) none

/-- Tie-break sample: id 1, inserted second, same interval as `eventTieA`. -/
def eventTieB : Event := mkEvent 1 (10 * microsPerHour) (11 * microsPerHour) none

/-- Reminder sample: id 1, starts 5 minutes after the scan instant 0. -/
def eventRem1 : Event := mkEvent 1 (5 * microsPerMinute) (10 * microsPerMinute) none

/-- Reminder sample: id 2, starts 10 minutes after the scan instant 0. -/
def eventRem2 : Event := mkEvent 2 (10 * microsPerMinute) (20 * microsPerMinute) none

/-! Helper lemmas shared by the claim theorems. -/

/-- An instant produced by `RRule.between` is at least the lower bound `a` of
the requested window (dateutil's `between` with `inc=True` never yields an
occurrence before its `after` argument). -/
theorem RRule.mem_between_lower {r : RRule} {dtstart a b t : Int}
    (h : t ∈ r.between dtstart a b) : a ≤ t := by
  unfold RRule.between at h
  split at h
  · simp at h
  · simp only [List.mem_filter, Bool.and_eq_true, decide_eq_true_eq] at h
    exact h.2.1

/-- A record emitted for a valid-rule master is built by `to_dict` from an
occurrence start in the evaluated window that passes the overlap re-test. -/
theorem mem_expandRecurring {qs qe : Int} {ev : Event} {r : RRule} {rec : DisplayRecord}
    (hmem : rec ∈ expandRecurring qs qe ev r) :
    ∃ s ∈ r.between ev.start_time qs qe,
      s < qe ∧ qs < s + (ev.end_time - ev.start_time)
      ∧ rec = ev.to_dict true (some s) (some (s + (ev.end_time - ev.start_time))) := by
  unfold expandRecurring at hmem
  simp only [List.mem_filterMap] at hmem
  obtain ⟨s, hs, hrec⟩ := hmem
  refine ⟨s, hs, ?_⟩
  split at hrec
  · next hcond =>
    simp only [Bool.and_eq_true, decide_eq_true_eq] at hcond
    injection hrec with h2
    exact ⟨hcond.1, hcond.2, h2.symm⟩
  · cases hrec

/-- C1 (counterexample): for the two-hour daily master `eventLong` and the
tz-aware window from 2024-01-02T11:00Z to 2024-01-02T23:00Z, the query
returns no record at all, even though the occurrence starting
2024-01-02T10:00Z is still running at 11:00Z: it lies in the
duration-widened evaluation window the claim describes and passes the
overlap re-test, so under the claim it would appear in the result. -/
theorem C1_counterexample :
    get_events_in_range 1 [eventLong] (.aware (microsPerDay + 11 * microsPerHour))
        (.aware (microsPerDay + 23 * microsPerHour)) = .ok []
    ∧ (microsPerDay + 10 * microsPerHour) ∈
        dailyCount3.between eventLong.start_time
          ((microsPerDay + 11 * microsPerHour) - (eventLong.end_time - eventLong.start_time))
          (microsPerDay + 23 * microsPerHour)
    ∧ (microsPerDay + 10 * microsPerHour) < (microsPerDay + 23 * microsPerHour)
    ∧ (microsPerDay + 11 * microsPerHour) <
        (microsPerDay + 10 * microsPerHour) + (eventLong.end_time - eventLong.start_time) := by
  refine ⟨by decide, by decide, by decide, by decide⟩

/-- C1 (amended): the recurrence evaluation is invoked over
`[window_start, window_end]` itself — the lower bound is not widened by the
master's duration — so every occurrence record the expansion emits starts at
or after `window_start` (and before `window_end`); an occurrence beginning
before the window is never produced, even when it overlaps the window. -/
theorem C1_no_widened_lower_bound (qs qe : Int) (ev : Event) (r : RRule)
    (rec : DisplayRecord) (hmem : rec ∈ expandRecurring qs qe ev r) :
    qs ≤ rec.start_time ∧ rec.start_time < qe := by
  obtain ⟨s, hs, hlt, _, rfl⟩ := mem_expandRecurring hmem
  have ha : qs ≤ s := RRule.mem_between_lower hs
  constructor
  · simpa [Event.to_dict] using ha
  · simpa [Event.to_dict] using hlt

/-- C1 (witness): the expansion of the scenario master over the
2024-01-02 whole-day window emits the occurrence starting 2024-01-02T10:00Z,
which indeed lies inside the unwidened window. -/
theorem C1_witness :
    microsPerDay ≤ (eventScenario.to_dict true (some (microsPerDay + 10 * microsPerHour))
        (some (microsPerDay + 11 * microsPerHour))).start_time
    ∧ (eventScenario.to_dict true (some (microsPerDay + 10 * microsPerHour))
        (some (microsPerDay + 11 * microsPerHour))).start_time < 2 * microsPerDay - 1 :=
  C1_no_widened_lower_bound microsPerDay (2 * microsPerDay - 1) eventScenario dailyCount3 _
    (by decide)

/-- C3 (counterexample): the non-recurring event `eventTouching` ends exactly
at the window's lower bound 2024-01-02T00:00Z, so the claim's strict overlap
test fails for it, yet the query emits it (the candidate filter uses the
non-strict `end_time >= query_start_dt`). -/
theorem C3_counterexample :
    get_events_in_range 1 [eventTouching] (.naive microsPerDay) (.naive microsPerDay)
      = .ok [eventTouching.to_dict false none none]
    ∧ eventTouching.end_time = microsPerDay := by
  refine ⟨by decide, by decide⟩

/-- C3 (amended): a non-recurring master is emitted as a single instance iff
its interval overlaps the window NON-strictly
(`start_time <= window_end AND end_time >= window_start`): an event touching
the window boundary (end = window_start or start = window_end) is included,
not excluded. -/
theorem C3_nonstrict_overlap (user_id : Nat) (ev : Event) (s e : DateInput) (qs qe : Int)
    (hrule : ev.recurrence_rule = none) (hparent : ev.parent_event_id = none)
    (huser : ev.user_id = user_id)
    (hw : resolveWindow s e = .ok (qs, qe)) :
    get_events_in_range user_id [ev] s e =
      .ok (if ev.start_time ≤ qe ∧ qs ≤ ev.end_time then [ev.to_dict false none none] else []) := by
  unfold get_events_in_range
  rw [hw]
  by_cases hov : ev.start_time ≤ qe ∧ qs ≤ ev.end_time
  · have hpot : isPotentialEvent user_id qs qe ev = true := by
      simp [isPotentialEvent, hrule, hparent, huser, hov.1, hov.2]
    rw [if_pos hov]
    simp [List.filter, hpot, List.insertionSort, expandAll, hrule, sortByStart,
      Event.to_dict, List.orderedInsert, Except.map]
  · have hpot : isPotentialEvent user_id qs qe ev = false := by
      simp only [isPotentialEvent, hrule, hparent, huser, beq_self_eq_true,
        Option.isNone_none, Bool.true_and]
      rw [Bool.and_eq_false_iff]
      rcases not_and_or.mp hov with h1 | h2
      · exact Or.inl (decide_eq_false h1)
      · exact Or.inr (decide_eq_false h2)
    rw [if_neg hov]
    simp [List.filter, hpot, List.insertionSort, expandAll, sortByStart]

/-- C3 (witness): instantiating the amended statement on `eventTouching` and
the 2024-01-02 whole-day window. -/
theorem C3_witness :
    get_events_in_range 1 [eventTouching] (.naive microsPerDay) (.naive microsPerDay)
      = .ok (if eventTouching.start_time ≤ 2 * microsPerDay - 1
              ∧ microsPerDay ≤ eventTouching.end_time
             then [eventTouching.to_dict false none none] else []) :=
  C3_nonstrict_overlap 1 eventTouching (.naive microsPerDay) (.naive microsPerDay)
    microsPerDay (2 * microsPerDay - 1) (by decide) (by decide) (by decide) (by decide)

/-- C4 (failing input): a master with rule text "NOT;A;VALID;RULE" whose
interval 2024-01-01T23:00Z to 2024-01-02T01:00Z overlaps the 2024-01-02
whole-day query window.  The `rrulestr` failure is caught, but the fallback
at event_service.py line 165 then compares the naive database `start_time`
with the tz-aware window bound, a comparison that raises `TypeError` inside
the `except` block and aborts the whole query — the claim's graceful
single-instance fallback never happens.  (The overlap conjuncts show the
master does overlap the window, so the claim requires it to be emitted.) -/
theorem C4_malformed_rule_aborts_query :
    get_events_in_range 1 [eventBadRule] (.naive microsPerDay) (.naive microsPerDay)
      = .error .naiveAwareTypeError
    ∧ eventBadRule.start_time ≤ 2 * microsPerDay - 1
    ∧ microsPerDay ≤ eventBadRule.end_time := by
  refine ⟨by decide, by decide, by decide⟩

/-- C6 (scenario evaluation): for the section-8 master
(start 2024-01-01T10:00Z, end 11:00Z, "FREQ=DAILY;COUNT=3"), the expansion
over the 2024-01-02 whole-day window derives exactly the one claimed
occurrence (2024-01-02T10:00Z to 11:00Z), but the full query then raises
`ValueError`: the final sort key `isoparse(x['start_time'])` is applied to
the occurrence's rendered string "...+00:00Z" (aware `isoformat()` plus the
appended 'Z'), which `isoparse` rejects — so the query errors instead of
returning the occurrence.  Scenario B (window 2024-01-05 to 2024-01-06, past
the 3-count series) does return zero occurrences as claimed. -/
theorem C6_scenario_a_errors :
    expandRecurring microsPerDay (2 * microsPerDay - 1) eventScenario dailyCount3
      = [eventScenario.to_dict true (some (microsPerDay + 10 * microsPerHour))
          (some (microsPerDay + 11 * microsPerHour))]
    ∧ get_events_in_range 1 [eventScenario] (.naive microsPerDay) (.naive microsPerDay)
        = .error .sortKeyValueError
    ∧ get_events_in_range 1 [eventScenario] (.naive (4 * microsPerDay)) (.naive (5 * microsPerDay))
        = .ok [] := by
  refine ⟨by decide, by decide, by decide⟩

/-- C7: every record the expansion derives from a master keeps the master's
exact duration and, when the master satisfies `end_time >= start_time`, so
does the record; and both the create and the update endpoint reject a body
whose `end_time` is strictly before its `start_time`, which establishes that
invariant for stored masters. -/
theorem C7_duration_preserved :
    (∀ (qs qe : Int) (ev : Event) (r : RRule) (rec : DisplayRecord),
        rec ∈ expandRecurring qs qe ev r →
          rec.end_time - rec.start_time = ev.end_time - ev.start_time
          ∧ (ev.start_time ≤ ev.end_time → rec.start_time ≤ rec.end_time))
    ∧ (∀ (s e : Option Int) (st et : Int),
        create_event_times s e = .ok (st, et) → st ≤ et)
    ∧ (∀ (ev : Event) (s e : Option Int) (ev2 : Event),
        update_event_times ev s e = .ok ev2 → ev2.start_time ≤ ev2.end_time) := by
  refine ⟨?_, ?_, ?_⟩
  · intro qs qe ev r rec hmem
    obtain ⟨s, _, _, _, rfl⟩ := mem_expandRecurring hmem
    constructor
    · simp [Event.to_dict]
    · intro hle
      simp only [Event.to_dict, Option.getD_some]
      omega
  · intro s e st et h
    cases s with
    | none => simp [create_event_times] at h
    | some a =>
      cases e with
      | none => simp [create_event_times] at h
      | some b =>
        dsimp only [create_event_times] at h
        by_cases hlt : b < a
        · rw [if_pos hlt] at h
          cases h
        · rw [if_neg hlt] at h
          injection h with h2
          obtain ⟨rfl, rfl⟩ := Prod.mk.injEq .. |>.mp h2
          omega
  · intro ev s e ev2 h
    unfold update_event_times at h
    by_cases hlt : e.getD ev.end_time < s.getD ev.start_time
    · rw [if_pos hlt] at h
      cases h
    · rw [if_neg hlt] at h
      injection h with h2
      subst h2
      simpa using Int.not_lt.mp hlt

/-- C7 (witness): the scenario occurrence keeps the master's one-hour
duration and well-ordered endpoints; `create` accepts (0, 5) giving 0 ≤ 5;
`update` of the reminder sample with unchanged times keeps its endpoints
ordered. -/
theorem C7_witness :
    ((eventScenario.to_dict true (some (microsPerDay + 10 * microsPerHour))
          (some (microsPerDay + 11 * microsPerHour))).end_time
        - (eventScenario.to_dict true (some (microsPerDay + 10 * microsPerHour))
          (some (microsPerDay + 11 * microsPerHour))).start_time
      = eventScenario.end_time - eventScenario.start_time)
    ∧ ((eventScenario.to_dict true (some (microsPerDay + 10 * microsPerHour))
          (some (microsPerDay + 11 * microsPerHour))).start_time
        ≤ (eventScenario.to_dict true (some (microsPerDay + 10 * microsPerHour))
          (some (microsPerDay + 11 * microsPerHour))).end_time)
    ∧ (0 : Int) ≤ 5
    ∧ eventRem1.start_time ≤ eventRem1.end_time := by
  have h1 := C7_duration_preserved.1 microsPerDay (2 * microsPerDay - 1) eventScenario
    dailyCount3 (eventScenario.to_dict true (some (microsPerDay + 10 * microsPerHour))
      (some (microsPerDay + 11 * microsPerHour))) (by decide)
  exact ⟨h1.1, h1.2 (by decide),
    C7_duration_preserved.2.1 (some 0) (some 5) 0 5 (by decide),
    C7_duration_preserved.2.2 eventRem1 none none eventRem1 (by decide)⟩

/-- C9: a range query with a missing start or end bound is rejected with the
window-required error, and the outcome is the same whatever the event store
holds — the rejection happens before any store access.  No records are
returned. -/
theorem C9_missing_bound_rejected (user_id : Nat) (events events' : List Event)
    (s e : DateInput) :
    get_events_in_range user_id events .missing e = .error .windowRequired
    ∧ get_events_in_range user_id events s .missing = .error .windowRequired
    ∧ get_events_in_range user_id events .missing e
        = get_events_in_range user_id events' .missing e
    ∧ get_events_in_range user_id events s .missing
        = get_events_in_range user_id events' s .missing := by
  refine ⟨?_, ?_, ?_, ?_⟩ <;>
    simp [get_events_in_range, resolveWindow, DateInput.isMissing]

/-- C10: when the end bound parses to a tz-naive datetime — whatever
time-of-day it carries — the effective window end lies on the same calendar
day and its time-of-day is 23:59:59.999999 (the last microsecond of the
day); when the end bound parses tz-aware it is used exactly as given. -/
theorem C10_naive_end_becomes_end_of_day (s : DateInput) (t qs qe : Int) :
    (resolveWindow s (.naive t) = .ok (qs, qe) →
        qe / microsPerDay = t / microsPerDay
        ∧ qe % microsPerDay = microsPerDay - 1)
    ∧ (resolveWindow s (.aware t) = .ok (qs, qe) → qe = t) := by
  constructor
  · intro h
    have hqe : qe = endOfDay t := by
      cases s with
      | missing => simp [resolveWindow, DateInput.isMissing] at h
      | invalid => simp [resolveWindow, DateInput.isMissing, DateInput.parsed] at h
      | naive u =>
        simp [resolveWindow, DateInput.isMissing, DateInput.parsed] at h
        exact h.2.symm
      | aware u =>
        simp [resolveWindow, DateInput.isMissing, DateInput.parsed] at h
        exact h.2.symm
    subst hqe
    unfold endOfDay microsPerDay
    omega
  · intro h
    cases s with
    | missing => simp [resolveWindow, DateInput.isMissing] at h
    | invalid => simp [resolveWindow, DateInput.isMissing, DateInput.parsed] at h
    | naive u =>
      simp [resolveWindow, DateInput.isMissing, DateInput.parsed] at h
      exact h.2.symm
    | aware u =>
      simp [resolveWindow, DateInput.isMissing, DateInput.parsed] at h
      exact h.2.symm

/-- C10 (witness): with start bound 2024-01-01T00:00Z (aware) and naive end
bound 2024-01-01T10:00:00 (explicit time-of-day), the effective end is the
last microsecond of 2024-01-01; with an aware end bound at instant 5 it is
exactly 5. -/
theorem C10_witness :
    ((microsPerDay - 1) / microsPerDay = (10 * microsPerHour) / microsPerDay
      ∧ (microsPerDay - 1) % microsPerDay = microsPerDay - 1)
    ∧ (5 : Int) = 5 :=
  ⟨(C10_naive_end_becomes_end_of_day (.aware 0) (10 * microsPerHour) 0 (microsPerDay - 1)).1
      (by decide),
   (C10_naive_end_becomes_end_of_day (.aware 0) 5 0 5).2 (by decide)⟩

/-- C5 (counterexample): two non-recurring events with identical intervals,
the one with id 2 stored before the one with id 1.  The query returns them
in store order [2, 1], not in id order [1, 2], although their resolved start
times are equal — there is no id tie-break anywhere in the code (the final
sort keys only on the start string and is stable). -/
theorem C5_counterexample :
    (get_events_in_range 1 [eventTieA, eventTieB] (.naive 0) (.naive 0)).map
        (fun l => l.map (fun rec => rec.id)) = .ok [2, 1]
    ∧ eventTieA.start_time = eventTieB.start_time := by
  refine ⟨by decide, by decide⟩

/-- C5 (amended): every successful range-query result is sorted ascending by
resolved start time.  Records with equal resolved start keep the candidate
fetch order (both sorts are stable) — they are not reordered by event id.
The query is a pure function of the store contents and order, so two
identical calls against an unchanged store return identical,
identically-ordered results. -/
theorem C5_result_sorted (user_id : Nat) (events : List Event) (s e : DateInput)
    (l : List DisplayRecord) (h : get_events_in_range user_id events s e = .ok l) :
    List.Sorted recStartLE l := by
  unfold get_events_in_range at h
  cases hw : resolveWindow s e with
  | error err => rw [hw] at h; cases h
  | ok p =>
    rw [hw] at h
    obtain ⟨qs, qe⟩ := p
    dsimp only at h
    cases hx : expandAll qs qe
        ((events.filter (isPotentialEvent user_id qs qe)).insertionSort evStartLE) with
    | error err => rw [hx] at h; cases h
    | ok disp =>
      rw [hx] at h
      dsimp only at h
      unfold sortByStart at h
      split at h
      · injection h with h2
        subst h2
        exact List.sorted_insertionSort recStartLE disp
      · cases h

/-- C5 (witness): the tie-break store's query result is sorted by resolved
start time. -/
theorem C5_witness :
    List.Sorted recStartLE
      [eventTieA.to_dict false none none, eventTieB.to_dict false none none] :=
  C5_result_sorted 1 [eventTieA, eventTieB] (.naive 0) (.naive 0)
    [eventTieA.to_dict false none none, eventTieB.to_dict false none none] (by decide)

/-- C2 (counterexample): both reminder samples are due at scan instant 0 and
every send succeeds.  A crash after the first loop iteration has already
sent the notification for event 1 (its id is in the sent list), yet the
durable store still records `reminder_sent = false` for both events:
nothing is persisted before the single end-of-batch commit. -/
theorem C2_counterexample :
    (send_event_reminders_interrupted (fun _ => true) 0 [eventRem1, eventRem2] 1).2 = [1]
    ∧ ((send_event_reminders_interrupted (fun _ => true) 0 [eventRem1, eventRem2] 1).1.map
        (fun ev => ev.reminder_sent)) = [false, false] := by
  refine ⟨by decide, by decide⟩

/-- C2 (amended): successful sends set `reminder_sent` only on the in-memory
session objects; one commit after the whole loop persists them together.
So (a) an interruption anywhere in the batch leaves the durable store
exactly as it was — already-notified events still show
`reminder_sent = false` and are retried — and (b) a completed scan durably
marks exactly the candidates whose send succeeded (for a store with
distinct event ids). -/
theorem C2_commit_only_after_batch (send : Nat → Bool) (now : Int) (db : List Event)
    (n : Nat) (hids : (db.map (fun ev => ev.id)).Nodup) :
    (send_event_reminders_interrupted send now db n).1 = db
    ∧ (send_event_reminders send now db).db =
        db.map (fun ev =>
          if reminderWindowOk now ev && !ev.reminder_sent && send ev.id then
            { ev with reminder_sent := true }
          else ev) := by
  refine ⟨rfl, ?_⟩
  unfold send_event_reminders
  dsimp only
  set cands := reminderCandidates now db with hcands
  set sentIds := (cands.filter (fun ev => send ev.id)).map (fun ev => ev.id) with hsentIds
  have hkey : ∀ ev ∈ db, (sentIds.contains ev.id = true)
      ↔ (reminderWindowOk now ev && !ev.reminder_sent && send ev.id) = true := by
    intro ev hev
    constructor
    · intro hcont
      have hmem : ev.id ∈ sentIds := by simpa using hcont
      rw [hsentIds] at hmem
      obtain ⟨ev', hev', hid⟩ := List.mem_map.mp hmem
      obtain ⟨hev'c, hsend⟩ := List.mem_filter.mp hev'
      rw [hcands] at hev'c
      obtain ⟨hev'db, hwin⟩ := List.mem_filter.mp hev'c
      have hee : ev' = ev := List.inj_on_of_nodup_map hids hev'db hev hid
      subst hee
      rw [Bool.and_eq_true]
      exact ⟨hwin, hsend⟩
    · intro hcond
      rw [Bool.and_eq_true] at hcond
      obtain ⟨hwin, hsend⟩ := hcond
      have hmem : ev.id ∈ sentIds := by
        rw [hsentIds]
        refine List.mem_map.mpr ⟨ev, ?_, rfl⟩
        refine List.mem_filter.mpr ⟨?_, hsend⟩
        rw [hcands]
        exact List.mem_filter.mpr ⟨hev, hwin⟩
      simpa using hmem
  by_cases hpos : 0 < sentIds.length
  · rw [if_pos hpos]
    apply List.map_congr_left
    intro ev hev
    by_cases hc : (reminderWindowOk now ev && !ev.reminder_sent && send ev.id) = true
    · rw [if_pos ((hkey ev hev).mpr hc), if_pos hc]
    · rw [if_neg (fun hcont => hc ((hkey ev hev).mp hcont)), if_neg hc]
  · rw [if_neg hpos]
    have hid2 : ∀ ev ∈ db,
        (if reminderWindowOk now ev && !ev.reminder_sent && send ev.id then
          { ev with reminder_sent := true } else ev) = id ev := by
      intro ev hev
      rw [if_neg]
      · rfl
      · intro hc
        have hmem : ev.id ∈ sentIds := by simpa using (hkey ev hev).mpr hc
        exact hpos (List.length_pos.mpr (List.ne_nil_of_mem hmem))
    rw [List.map_congr_left hid2, List.map_id]

/-- C2 (witness): instantiating the amended statement on the two-event
reminder store with all sends succeeding and a crash after one iteration. -/
theorem C2_witness :
    (send_event_reminders_interrupted (fun _ => true) 0 [eventRem1, eventRem2] 1).1
      = [eventRem1, eventRem2]
    ∧ (send_event_reminders (fun _ => true) 0 [eventRem1, eventRem2]).db =
        [eventRem1, eventRem2].map (fun ev =>
          if reminderWindowOk 0 ev && !ev.reminder_sent && true then
            { ev with reminder_sent := true }
          else ev) :=
  C2_commit_only_after_batch (fun _ => true) 0 [eventRem1, eventRem2] 1 (by decide)

/-- The sent counter of a scan is the number of candidates whose send
succeeded. -/
theorem send_event_reminders_sent (send : Nat → Bool) (now : Int) (db : List Event) :
    (send_event_reminders send now db).sent =
      (((reminderCandidates now db).filter (fun ev => send ev.id)).map
        (fun ev => ev.id)).length := rfl

/-- C8: when every send of a first scan succeeds, a second scan run
immediately afterwards (same `now`, no new events) finds no candidate at
all — every in-window event now has `reminder_sent = true` and the
candidate filter requires `reminder_sent == False` — and therefore sends
zero notifications. -/
theorem C8_second_scan_sends_nothing (send : Nat → Bool) (now : Int) (db : List Event)
    (h : ∀ ev ∈ reminderCandidates now db, send ev.id = true) :
    reminderCandidates now (send_event_reminders send now db).db = []
    ∧ (send_event_reminders send now (send_event_reminders send now db).db).sent = 0 := by
  have hmain : reminderCandidates now (send_event_reminders send now db).db = [] := by
    unfold send_event_reminders
    dsimp only
    set cands := reminderCandidates now db with hcands
    set sentIds := (cands.filter (fun ev => send ev.id)).map (fun ev => ev.id) with hsentIds
    have hsub : ∀ ev ∈ cands, ev.id ∈ sentIds := by
      intro ev hev
      rw [hsentIds]
      exact List.mem_map.mpr ⟨ev, List.mem_filter.mpr ⟨hev, h ev hev⟩, rfl⟩
    by_cases hpos : 0 < sentIds.length
    · rw [if_pos hpos]
      unfold reminderCandidates
      apply List.filter_eq_nil_iff.mpr
      intro ev' hev'
      obtain ⟨ev, hev, rfl⟩ := List.mem_map.mp hev'
      by_cases hc : sentIds.contains ev.id = true
      · rw [if_pos hc]
        simp
      · rw [if_neg hc]
        intro hcand
        have hmemc : ev ∈ cands := by
          rw [hcands]
          exact List.mem_filter.mpr ⟨hev, hcand⟩
        exact hc (by simpa using hsub ev hmemc)
    · rw [if_neg hpos]
      have hnil : sentIds = [] :=
        List.eq_nil_of_length_eq_zero (Nat.eq_zero_of_not_pos hpos)
    -- an inhabited candidate list would put an id into the empty sent list
      cases hcnil : cands with
      | nil => rw [← hcands]; exact hcnil
      | cons a t =>
        have := hsub a (by rw [hcnil]; exact List.mem_cons_self a t)
        rw [hnil] at this
        cases this
  refine ⟨hmain, ?_⟩
  rw [send_event_reminders_sent, hmain]
  simp

/-- C8 (witness): one due event, all sends succeed: after the first scan
there is no candidate left and the second scan sends nothing. -/
theorem C8_witness :
    reminderCandidates 0 (send_event_reminders (fun _ => true) 0 [eventRem1]).db = []
    ∧ (send_event_reminders (fun _ => true) 0
        (send_event_reminders (fun _ => true) 0 [eventRem1]).db).sent = 0 :=
  C8_second_scan_sends_nothing (fun _ => true) 0 [eventRem1] (by decide)
